import Mathlib

/-!
Shallow embedding of the Perun ICP canister adjudicator core
(src/lib.rs, src/types.rs, src/icp.rs) and proofs about its
conclude / dispute / withdraw / payment-receiver operations.

Byte strings are modelled as lists of naturals, amounts as naturals
(candid Nat is an unbounded non-negative integer), and the two external
cryptographic primitives (SHA-512 hashing and strict Ed25519
verification) as explicit functional parameters bundled in `Crypto`,
exactly at the interface the Rust code calls them
(`Hash::digest`, `PublicKey::verify_strict`).
Hash maps become functions into `Option`.
-/

namespace Perun

/-- Errors of the canister, from src/error.rs. -/
inductive Error where
  | Authentication
  | NotFinalized
  | AlreadyConcluded
  | InvalidInput
  | InsufficientFunding
  | OutdatedState
  | LedgerError
deriving DecidableEq, Repr

/-- Payment receiver errors, from src/icp.rs. -/
inductive ICPReceiverError where
  | TransactionType
  | Recipient
  | DuplicateTransaction
  | FailedToQuery
deriving DecidableEq, Repr

/-- The cryptographic primitives the canister calls: a digest function
(SHA-512 in the source) and strict Ed25519 signature verification
(`pk.verify_strict(msg, sig)` in the source, returning a Bool here). -/
structure Crypto where
  hash : List Nat → List Nat
  ver : List Nat → List Nat → List Nat → Bool

/-- Little-endian encoding of a u64 (`u64::to_le_bytes`). -/
def u64LE (n : Nat) : List Nat :=
  [n % 256, n / 256 % 256, n / 256 ^ 2 % 256, n / 256 ^ 3 % 256,
   n / 256 ^ 4 % 256, n / 256 ^ 5 % 256, n / 256 ^ 6 % 256, n / 256 ^ 7 % 256]

/-- Fuel-indexed little-endian base-256 digits of a natural number. -/
def natLEBytesAux : Nat → Nat → List Nat
  | 0, _ => []
  | fuel + 1, n => if n = 0 then [] else n % 256 :: natLEBytesAux fuel (n / 256)

/-- `BigUint::to_bytes_le`: minimal little-endian magnitude bytes,
with zero represented as a single zero byte. -/
def toBytesLE (n : Nat) : List Nat :=
  if n = 0 then [0] else natLEBytesAux n n

/-- Channel parameters, from src/types.rs (`Params`). Participants are
Ed25519 public keys, modelled by their byte encodings. -/
structure Params where
  nonce : List Nat
  participants : List (List Nat)
  challenge_duration : Nat
deriving DecidableEq

/-- A channel state, from src/types.rs (`State`). -/
structure State where
  channel : List Nat
  version : Nat
  allocation : List Nat
  finalized : Bool
deriving DecidableEq

/-- A channel state with all participants' signatures
(`FullySignedState`). -/
structure FullySignedState where
  state : State
  sigs : List (List Nat)
deriving DecidableEq

/-- A registered channel state (`RegisteredState`). -/
structure RegisteredState where
  state : State
  timeout : Nat
deriving DecidableEq

/-- A funding slot: one participant's funds in one channel (`Funding`). -/
structure Funding where
  channel : List Nat
  participant : List Nat
deriving DecidableEq

/-- A withdrawal request, from src/types.rs (`WithdrawalRequest`). -/
structure WithdrawalRequest where
  channel : List Nat
  participant : List Nat
  receiver : List Nat
  signature : List Nat
  time : Nat
deriving DecidableEq

/-- The canonical byte string over which channel-state signatures are
verified, built exactly as in `State::validate_sig` (src/types.rs):
channel id bytes, then the version as u64 little-endian, then for each
allocation amount its `BigUint::to_bytes_le` bytes, then the finalized
flag as one byte. -/
def State.sigMsg (s : State) : List Nat :=
  s.channel ++ u64LE s.version ++ (s.allocation.map toBytesLE).flatten
    ++ [if s.finalized then 1 else 0]

/-- `State::validate_sig`: strict verification of one signature over the
canonical state encoding; failure is `Error::Authentication`. -/
def State.validate_sig (C : Crypto) (s : State) (sig pk : List Nat) :
    Except Error Unit :=
  if C.ver pk s.sigMsg sig then .ok () else .error .Authentication

/-- `State::total`: the sum of the allocation. -/
def State.total (s : State) : Nat := s.allocation.foldl (· + ·) 0

/-- `State::may_be_underfunded`: initial, non-finalized states may be
registered under-funded. -/
def State.may_be_underfunded (s : State) : Bool :=
  s.version == 0 && !s.finalized

/-- `Params::id`: the channel id is the first 32 bytes of the digest over
nonce bytes, all participant public keys, and the challenge duration in
u64 little-endian. -/
def Params.id (C : Crypto) (p : Params) : List Nat :=
  (C.hash (p.nonce ++ p.participants.flatten ++ u64LE p.challenge_duration)).take 32

/-- The signature-checking loop of `FullySignedState::validate`: check
each (signature, participant) pair in order, returning the first error.
Only called after the length checks, where `zip` agrees with the
source's indexed loop. -/
def validateSigsAux (C : Crypto) (s : State) :
    List (List Nat × List Nat) → Except Error Unit
  | [] => .ok ()
  | p :: rest =>
    match State.validate_sig C s p.1 p.2 with
    | .ok _ => validateSigsAux C s rest
    | .error e => .error e

/-- `FullySignedState::validate`: channel id must match the params-derived
id, signature count must match participant count and allocation count,
then every signature must verify. -/
def FullySignedState.validate (C : Crypto) (fs : FullySignedState)
    (params : Params) : Except Error Unit :=
  if fs.state.channel = params.id C then
    if fs.sigs.length = params.participants.length then
      if fs.sigs.length = fs.state.allocation.length then
        validateSigsAux C fs.state (fs.sigs.zip params.participants)
      else .error .InvalidInput
    else .error .InvalidInput
  else .error .InvalidInput

/-- `FullySignedState::validate_final`: additionally requires the state
to be finalized, checked before anything else. -/
def FullySignedState.validate_final (C : Crypto) (fs : FullySignedState)
    (params : Params) : Except Error Unit :=
  if fs.state.finalized then fs.validate C params else .error .NotFinalized

/-- `RegisteredState::settled`: finalized or past the timeout. -/
def RegisteredState.settled (rs : RegisteredState) (now : Nat) : Bool :=
  rs.state.finalized || decide (rs.timeout ≤ now)

/-- `RegisteredState::conclude`: validate as final, then register with
timeout 0 (`Default::default()`). -/
def RegisteredState.conclude (C : Crypto) (fs : FullySignedState)
    (params : Params) : Except Error RegisteredState :=
  match fs.validate_final C params with
  | .error e => .error e
  | .ok _ => .ok { state := fs.state, timeout := 0 }

/-- `RegisteredState::dispute`: validate, then register with timeout
`now + params.challenge_duration`, unconditionally. -/
def RegisteredState.dispute (C : Crypto) (fs : FullySignedState)
    (params : Params) (now : Nat) : Except Error RegisteredState :=
  match fs.validate C params with
  | .error e => .error e
  | .ok _ => .ok { state := fs.state, timeout := now + params.challenge_duration }

/-- The canister's mutable state: the holdings ledger and the channel
registry (`CanisterState`), with hash maps as functions into `Option`. -/
structure CanisterState where
  holdings : Funding → Option Nat
  channels : List Nat → Option RegisteredState

/-- `CanisterState::update_holdings`: overwrite each participant's
holdings slot of the state's channel with the allocation entry. -/
def update_holdings (params : Params) (s : State)
    (h : Funding → Option Nat) : Funding → Option Nat :=
  (params.participants.zip s.allocation).foldl
    (fun acc pa => fun f =>
      if f = ⟨s.channel, pa.1⟩ then some pa.2 else acc f) h

/-- `CanisterState::register_channel` of src/lib.rs: unconditionally push
the allocation into holdings, then insert the registered state.
There is no funding check in this function. -/
def register_channel (params : Params) (rs : RegisteredState)
    (cs : CanisterState) : CanisterState :=
  { holdings := update_holdings params rs.state cs.holdings,
    channels := fun c => if c = rs.state.channel then some rs else cs.channels c }

/-- `CanisterState::holdings_total`: sum of the holdings slots of all
participants of the channel derived from the params. -/
def holdings_total (C : Crypto) (cs : CanisterState) (params : Params) : Nat :=
  params.participants.foldl
    (fun acc pk => acc + ((cs.holdings ⟨params.id C, pk⟩).getD 0)) 0

/-- The shared tail of `conclude`: build the registered state and, on
success, register it. Errors leave the canister state untouched. -/
def concludeCore (C : Crypto) (cs : CanisterState) (params : Params)
    (fs : FullySignedState) : Except Error Unit × CanisterState :=
  match RegisteredState.conclude C fs params with
  | .error e => (.error e, cs)
  | .ok rs => (.ok (), register_channel params rs cs)

/-- `CanisterState::conclude` (src/lib.rs): reject `AlreadyConcluded` if a
settled state is registered, then validate-final and register. -/
def conclude (C : Crypto) (cs : CanisterState) (params : Params)
    (fs : FullySignedState) (now : Nat) : Except Error Unit × CanisterState :=
  match cs.channels fs.state.channel with
  | some old =>
    if old.settled now then (.error .AlreadyConcluded, cs)
    else concludeCore C cs params fs
  | none => concludeCore C cs params fs

/-- The shared tail of `dispute`. -/
def disputeCore (C : Crypto) (cs : CanisterState) (params : Params)
    (fs : FullySignedState) (now : Nat) : Except Error Unit × CanisterState :=
  match RegisteredState.dispute C fs params now with
  | .error e => (.error e, cs)
  | .ok rs => (.ok (), register_channel params rs cs)

/-- `CanisterState::dispute` (src/lib.rs): reject `AlreadyConcluded` if a
settled state is registered, reject `OutdatedState` unless the new
version is strictly greater, then validate and register. -/
def dispute (C : Crypto) (cs : CanisterState) (params : Params)
    (fs : FullySignedState) (now : Nat) : Except Error Unit × CanisterState :=
  match cs.channels fs.state.channel with
  | some old =>
    if old.settled now then (.error .AlreadyConcluded, cs)
    else if fs.state.version ≤ old.state.version then (.error .OutdatedState, cs)
    else disputeCore C cs params fs now
  | none => disputeCore C cs params fs now

/-- The canonical byte string over which a withdrawal signature is
verified (`WithdrawalRequest::validate_sig`): channel id bytes, then the
participant public key bytes, then the receiver bytes. The request's
`time` field is not part of the message. -/
def withdrawMsg (req : WithdrawalRequest) : List Nat :=
  req.channel ++ req.participant ++ req.receiver

/-- `CanisterState::withdraw` (src/lib.rs): the settlement clock is the
caller-supplied `req.time`. Verify the signature, require a registered
settled state, then drain the holdings slot (absent slot drains to the
default amount 0). -/
def withdraw (C : Crypto) (cs : CanisterState) (req : WithdrawalRequest) :
    Except Error Nat × CanisterState :=
  if C.ver req.participant (withdrawMsg req) req.signature then
    match cs.channels req.channel with
    | none => (.error .NotFinalized, cs)
    | some st =>
      if st.settled req.time then
        (.ok ((cs.holdings ⟨req.channel, req.participant⟩).getD 0),
         { cs with holdings := fun f =>
            if f = ⟨req.channel, req.participant⟩ then none else cs.holdings f })
      else (.error .NotFinalized, cs)
  else (.error .Authentication, cs)

/-- A transaction as seen by the payment receiver
(`TransactionNotification` in src/icp.rs). -/
structure TransactionNotification where
  toAcc : List Nat
  amount : Nat
  memo : Nat
deriving DecidableEq

/-- The payment receiver (`Receiver` in src/icp.rs): the adjudicator's
ledger account, the set of known block heights, and the unspent amounts
per memo. -/
structure Receiver where
  my_account : List Nat
  known_txs : Nat → Bool
  unspent : Nat → Option Nat

/-- `Receiver::verify` (src/icp.rs): reject already-known block heights
as duplicates; query the transaction; on success first insert the block
height into the known set, then check the recipient, then credit the
memo. The transaction querier is passed as a function. -/
def Receiver.verify (query : Nat → Except ICPReceiverError TransactionNotification)
    (r : Receiver) (h : Nat) : Except ICPReceiverError Nat × Receiver :=
  if r.known_txs h then (.error .DuplicateTransaction, r)
  else
    match query h with
    | .error e => (.error e, r)
    | .ok tx =>
      let wasKnown := r.known_txs h
      let r1 : Receiver :=
        { r with known_txs := fun k => if k = h then true else r.known_txs k }
      if wasKnown then (.error .DuplicateTransaction, r1)
      else if tx.toAcc ≠ r.my_account then (.error .Recipient, r1)
      else (.ok tx.amount,
        { r1 with unspent := fun m =>
            if m = tx.memo then some ((r1.unspent m).getD 0 + tx.amount)
            else r1.unspent m })

/-! Concrete test fixtures used by counterexamples and witnesses. -/

/-- A crypto instantiation whose verifier accepts every signature and
whose digest is constant zero. -/
def verTrue : Crypto := ⟨fun _ => List.replicate 64 0, fun _ _ _ => true⟩

/-- A crypto instantiation whose verifier rejects every signature. -/
def verFalse : Crypto := ⟨fun _ => List.replicate 64 0, fun _ _ _ => false⟩

/-- The empty canister state: no holdings, no registered channels. -/
def emptyCS : CanisterState := ⟨fun _ => none, fun _ => none⟩

/-- The channel id derived by `Params.id` under the constant-zero digest. -/
def ch0 : List Nat := List.replicate 32 0

/-- Single-participant params used by concrete scenarios. -/
def params0 : Params := ⟨List.replicate 32 7, [[1]], 1⟩

/-- A finalized single-participant state allocating 10 tokens. -/
def fs0 : FullySignedState := ⟨⟨ch0, 1, [10], true⟩, [[2]]⟩

/-- A non-finalized single-participant state with one signature. -/
def fs2 : FullySignedState := ⟨⟨ch0, 1, [5], false⟩, [[2]]⟩

/-- The same state as `fs2` but finalized. -/
def fs2f : FullySignedState := ⟨⟨ch0, 1, [5], true⟩, [[2]]⟩

/-- Single-participant params with challenge duration 3. -/
def params6 : Params := ⟨List.replicate 32 4, [[1]], 3⟩

/-- A single-participant canister state holding a registered settled
channel at `ch0` with 10 tokens in the participant's slot. -/
def settledCS : CanisterState :=
  ⟨fun f => if f = ⟨ch0, [1]⟩ then some 10 else none,
   fun c => if c = ch0 then some ⟨⟨ch0, 5, [10], true⟩, 0⟩ else none⟩

/-- A canister state with a non-settled registered channel of version 5
at `ch0` (timeout 100, not finalized). -/
def disputedCS : CanisterState :=
  ⟨fun f => if f = ⟨ch0, [1]⟩ then some 10 else none,
   fun c => if c = ch0 then some ⟨⟨ch0, 5, [10], false⟩, 100⟩ else none⟩

/-- A transaction querier knowing one transaction at block height 7,
addressed to account [1] with amount 5 and memo 9. -/
def q8 : Nat → Except ICPReceiverError TransactionNotification :=
  fun h => if h = 7 then .ok ⟨[1], 5, 9⟩ else .error .FailedToQuery

/-- A fresh payment receiver whose own account is [2]. -/
def r8 : Receiver := ⟨[2], fun _ => false, fun _ => none⟩

/-- A payment receiver whose own account is [1] (matching `q8`). -/
def r8ok : Receiver := ⟨[1], fun _ => false, fun _ => none⟩

/-! Helper lemmas. -/

/-- Settlement is monotone in time. -/
theorem settled_mono (rs : RegisteredState) {t u : Nat}
    (h : rs.settled t = true) (htu : t ≤ u) : rs.settled u = true := by
  simp only [RegisteredState.settled, Bool.or_eq_true, decide_eq_true_eq] at h ⊢
  rcases h with h | h
  · exact Or.inl h
  · exact Or.inr (le_trans h htu)

/-- The signature loop either succeeds or fails with `Authentication`. -/
theorem validateSigsAux_ok_or (C : Crypto) (s : State)
    (l : List (List Nat × List Nat)) :
    validateSigsAux C s l = .ok () ∨
      validateSigsAux C s l = .error .Authentication := by
  induction l with
  | nil => exact Or.inl rfl
  | cons p rest ih =>
    by_cases hv : C.ver p.2 s.sigMsg p.1
    · simpa [validateSigsAux, State.validate_sig, hv] using ih
    · right
      simp [validateSigsAux, State.validate_sig, hv]

/-- If any pair in the list fails verification, the signature loop
returns `Authentication`. -/
theorem validateSigsAux_mem_fail (C : Crypto) (s : State)
    {l : List (List Nat × List Nat)} {p : List Nat × List Nat}
    (hp : p ∈ l) (hv : C.ver p.2 s.sigMsg p.1 = false) :
    validateSigsAux C s l = .error .Authentication := by
  induction l with
  | nil => cases hp
  | cons q rest ih =>
    by_cases hq : C.ver q.2 s.sigMsg q.1
    · rcases List.mem_cons.mp hp with rfl | hmem
      · rw [hq] at hv; cases hv
      · simp only [validateSigsAux, State.validate_sig, hq, if_pos]
        exact ih hmem
    · simp [validateSigsAux, State.validate_sig, hq]

/-- If the structural checks pass and some signature fails, `validate`
returns `Authentication`. -/
theorem validate_fail_of_mem (C : Crypto) (fs : FullySignedState)
    (params : Params) {p : List Nat × List Nat}
    (hch : fs.state.channel = params.id C)
    (hl1 : fs.sigs.length = params.participants.length)
    (hl2 : fs.sigs.length = fs.state.allocation.length)
    (hp : p ∈ fs.sigs.zip params.participants)
    (hv : C.ver p.2 fs.state.sigMsg p.1 = false) :
    fs.validate C params = .error .Authentication := by
  unfold FullySignedState.validate
  rw [if_pos hch, if_pos hl1, if_pos hl2]
  exact validateSigsAux_mem_fail C fs.state hp hv

/-- A successful `RegisteredState.dispute` returns exactly the supplied
state with timeout `now + challenge_duration`. -/
theorem registeredState_dispute_ok (C : Crypto) (fs : FullySignedState)
    (params : Params) (now : Nat) (rs : RegisteredState)
    (h : RegisteredState.dispute C fs params now = .ok rs) :
    rs = ⟨fs.state, now + params.challenge_duration⟩ := by
  unfold RegisteredState.dispute at h
  cases hval : fs.validate C params with
  | error e => rw [hval] at h; cases h
  | ok u => rw [hval] at h; cases h; rfl

/-! Claim theorems. -/

/-- Claim C1 (code bug evaluation): on an empty canister (total holdings
0), concluding a validly signed finalized state allocating 10 tokens
succeeds and overwrites the participant's holdings slot to 10, even
though the channel is strictly under-funded; the code never returns
`InsufficientFunding`, contradicting the repository's own tests. -/
theorem conclude_ignores_underfunding :
    holdings_total verTrue emptyCS params0 < State.total fs0.state ∧
    (conclude verTrue emptyCS params0 fs0 0).1 = .ok () ∧
    (conclude verTrue emptyCS params0 fs0 0).2.holdings ⟨ch0, [1]⟩ = some 10 ∧
    (conclude verTrue emptyCS params0 fs0 0).2.channels ch0 =
      some ⟨fs0.state, 0⟩ := by
  refine ⟨by decide, rfl, rfl, rfl⟩

/-- Claim C3: against an existing, unsettled registry entry, a dispute
with a version that is not strictly greater returns `OutdatedState` and
leaves the canister state unchanged, and a successful dispute implies
the new version strictly exceeds the registered one. -/
theorem dispute_version_monotone (C : Crypto) (cs : CanisterState)
    (params : Params) (fs : FullySignedState) (now : Nat)
    (old : RegisteredState)
    (hold : cs.channels fs.state.channel = some old)
    (hns : old.settled now = false) :
    (fs.state.version ≤ old.state.version →
      dispute C cs params fs now = (.error .OutdatedState, cs)) ∧
    ((dispute C cs params fs now).1 = .ok () →
      old.state.version < fs.state.version) := by
  constructor
  · intro hle
    unfold dispute
    rw [hold]
    simp [hns, hle]
  · intro hok
    by_contra hlt
    push_neg at hlt
    unfold dispute at hok
    rw [hold] at hok
    simp [hns, hlt] at hok

/-- Witness for C3: a concrete outdated refutation is rejected with the
registry untouched. -/
theorem dispute_version_monotone_witness :
    dispute verTrue disputedCS params0 fs0 0 = (.error .OutdatedState, disputedCS) :=
  (dispute_version_monotone verTrue disputedCS params0 fs0 0
    ⟨⟨ch0, 5, [10], false⟩, 100⟩ rfl rfl).1 (by decide)

/-- Claim C4: once the registered state of a channel is settled, every
later conclude or dispute on that channel returns `AlreadyConcluded`
and leaves the canister state unchanged, while a correctly signed
withdraw still drains the holdings slot. -/
theorem settled_blocks_conclude_dispute (C : Crypto) (cs : CanisterState)
    (ch : List Nat) (rs : RegisteredState) (now now2 : Nat)
    (hch : cs.channels ch = some rs)
    (hs : rs.settled now = true) (hle : now ≤ now2) :
    (∀ params fs, fs.state.channel = ch →
      conclude C cs params fs now2 = (.error .AlreadyConcluded, cs)) ∧
    (∀ params fs, fs.state.channel = ch →
      dispute C cs params fs now2 = (.error .AlreadyConcluded, cs)) ∧
    (∀ pk rcv sig t, C.ver pk (withdrawMsg ⟨ch, pk, rcv, sig, t⟩) sig = true →
      now2 ≤ t →
      (withdraw C cs ⟨ch, pk, rcv, sig, t⟩).1 =
        .ok ((cs.holdings ⟨ch, pk⟩).getD 0)) := by
  have hs2 : rs.settled now2 = true := settled_mono rs hs hle
  refine ⟨?_, ?_, ?_⟩
  · intro params fs hfc
    unfold conclude
    rw [hfc, hch]
    simp [hs2]
  · intro params fs hfc
    unfold dispute
    rw [hfc, hch]
    simp [hs2]
  · intro pk rcv sig t hv ht
    have hst : rs.settled t = true := settled_mono rs hs2 ht
    unfold withdraw
    simp [hv, hch, hst]

/-- Witness for C4: on a concrete settled channel, conclude and dispute
are rejected unchanged and a signed withdraw drains the slot of 10. -/
theorem settled_blocks_conclude_dispute_witness :
    conclude verTrue settledCS params0 fs0 3 = (.error .AlreadyConcluded, settledCS) ∧
    dispute verTrue settledCS params0 fs0 3 = (.error .AlreadyConcluded, settledCS) ∧
    (withdraw verTrue settledCS ⟨ch0, [1], [9], [2], 3⟩).1 = .ok 10 := by
  have h := settled_blocks_conclude_dispute verTrue settledCS ch0
    ⟨⟨ch0, 5, [10], true⟩, 0⟩ 0 3 rfl rfl (by decide)
  exact ⟨h.1 params0 fs0 rfl, h.2.1 params0 fs0 rfl, h.2.2 [1] [9] [2] 3 rfl (by decide)⟩

/-- Claim C6 counterexample: on an empty canister, disputing a finalized
state at time 5 with challenge duration 3 succeeds and stores timeout
8, not the claimed 0. -/
theorem dispute_finalized_timeout_cex :
    (⟨⟨ch0, 1, [5], true⟩, [[2]]⟩ : FullySignedState).state.finalized = true ∧
    (dispute verTrue emptyCS params6 fs2f 5).1 = .ok () ∧
    (dispute verTrue emptyCS params6 fs2f 5).2.channels ch0 =
      some ⟨fs2f.state, 8⟩ ∧
    (8 : Nat) ≠ 0 := by
  refine ⟨rfl, rfl, rfl, by decide⟩

/-- Claim C6 amended: a successful dispute stores a `RegisteredState`
with timeout `now + params.challenge_duration` regardless of whether the
supplied state is finalized; that value is what `query_state` then
returns for the channel. -/
theorem dispute_timeout_value (C : Crypto) (cs : CanisterState)
    (params : Params) (fs : FullySignedState) (now : Nat)
    (hok : (dispute C cs params fs now).1 = .ok ()) :
    (dispute C cs params fs now).2.channels fs.state.channel =
      some ⟨fs.state, now + params.challenge_duration⟩ := by
  have core : ∀ res : Except Error Unit × CanisterState,
      res = disputeCore C cs params fs now → res.1 = .ok () →
      res.2.channels fs.state.channel =
        some ⟨fs.state, now + params.challenge_duration⟩ := by
    intro res hres hok1
    cases hrs : RegisteredState.dispute C fs params now with
    | error e =>
      rw [hres] at hok1
      unfold disputeCore at hok1
      rw [hrs] at hok1
      cases hok1
    | ok rs =>
      have hrsv := registeredState_dispute_ok C fs params now rs hrs
      rw [hres]
      unfold disputeCore
      rw [hrs]
      simp [register_channel, hrsv]
  unfold dispute at hok ⊢
  cases hch : cs.channels fs.state.channel with
  | none =>
    rw [hch] at hok
    exact core _ rfl hok
  | some old =>
    rw [hch] at hok
    dsimp only at hok ⊢
    by_cases hs : old.settled now
    · simp [hs] at hok
    · rw [if_neg hs] at hok ⊢
      by_cases hver : fs.state.version ≤ old.state.version
      · rw [if_pos hver] at hok
        cases hok
      · rw [if_neg hver] at hok ⊢
        exact core _ rfl hok

/-- Witness for C6 amended: the concrete finalized dispute of the
counterexample stores timeout 5 + 3. -/
theorem dispute_timeout_value_witness :
    (dispute verTrue emptyCS params6 fs2f 5).2.channels fs2f.state.channel =
      some ⟨fs2f.state, 5 + params6.challenge_duration⟩ :=
  dispute_timeout_value verTrue emptyCS params6 fs2f 5 rfl

/-- Claim C10 counterexample: the states allocating [256, 1] and
[0, 1, 1] have identical canonical signing byte strings although the
allocation lists are distinct, so the encoding is not injective and
carries no u32 length prefix. -/
theorem state_encoding_collision_cex :
    State.sigMsg ⟨ch0, 1, [256, 1], false⟩ =
      State.sigMsg ⟨ch0, 1, [0, 1, 1], false⟩ ∧
    ([256, 1] : List Nat) ≠ [0, 1, 1] := by
  exact ⟨rfl, by decide⟩

/-- Claim C10 amended: each allocation amount is encoded as its bare
unbounded little-endian magnitude bytes (zero as one zero byte), with no
length prefix, and consequently distinct allocation lists can produce
identical signed byte strings. -/
theorem state_encoding_raw_le_bytes :
    toBytesLE 0 = [0] ∧ toBytesLE 1 = [1] ∧ toBytesLE 256 = [0, 1] ∧
    State.sigMsg ⟨[9], 2, [0, 1, 256], true⟩ =
      [9] ++ [2, 0, 0, 0, 0, 0, 0, 0] ++ ([0] ++ [1] ++ [0, 1]) ++ [1] ∧
    ∃ s t : State, s.channel = t.channel ∧ s.version = t.version ∧
      s.finalized = t.finalized ∧ s.allocation ≠ t.allocation ∧
      State.sigMsg s = State.sigMsg t := by
  refine ⟨rfl, rfl, rfl, rfl,
    ⟨⟨[9], 1, [256, 1], false⟩, ⟨[9], 1, [0, 1, 1], false⟩,
      rfl, rfl, rfl, by decide, rfl⟩⟩

/-- Claim C2 counterexample: with a verifier that rejects every
signature, concluding a structurally valid but non-finalized state
returns `NotFinalized`, not `Authentication`, although its (only)
signature fails verification. -/
theorem badsig_not_authentication_cex :
    verFalse.ver [1] fs2.state.sigMsg [2] = false ∧
    (conclude verFalse emptyCS params0 fs2 0).1 = .error .NotFinalized ∧
    Error.NotFinalized ≠ Error.Authentication := by
  refine ⟨rfl, rfl, by decide⟩

/-- Claim C2 amended: provided the state passes the structural checks
(channel id equals the params-derived id, signature count equals the
participant count and the allocation count), the state is finalized,
and the channel has no prior registry entry, then if any signature
fails strict verification over the canonical state encoding, both
conclude and dispute return `Authentication` and leave the canister
state unchanged. -/
theorem badsig_authentication (C : Crypto) (cs : CanisterState)
    (params : Params) (fs : FullySignedState) (now : Nat)
    (p : List Nat × List Nat)
    (hch : fs.state.channel = params.id C)
    (hl1 : fs.sigs.length = params.participants.length)
    (hl2 : fs.sigs.length = fs.state.allocation.length)
    (hfin : fs.state.finalized = true)
    (hnone : cs.channels fs.state.channel = none)
    (hp : p ∈ fs.sigs.zip params.participants)
    (hv : C.ver p.2 fs.state.sigMsg p.1 = false) :
    conclude C cs params fs now = (.error .Authentication, cs) ∧
    dispute C cs params fs now = (.error .Authentication, cs) := by
  have hval : fs.validate C params = .error .Authentication :=
    validate_fail_of_mem C fs params hch hl1 hl2 hp hv
  constructor
  · unfold conclude
    rw [hnone]
    unfold concludeCore RegisteredState.conclude FullySignedState.validate_final
    rw [if_pos hfin, hval]
  · unfold dispute
    rw [hnone]
    unfold disputeCore RegisteredState.dispute
    rw [hval]

/-- Witness for C2 amended: a concrete finalized, structurally valid
state whose signature fails yields `Authentication` from both
operations, unchanged state. -/
theorem badsig_authentication_witness :
    conclude verFalse emptyCS params0 fs2f 0 = (.error .Authentication, emptyCS) ∧
    dispute verFalse emptyCS params0 fs2f 0 = (.error .Authentication, emptyCS) :=
  badsig_authentication verFalse emptyCS params0 fs2f 0 ([2], [1])
    (by decide) rfl rfl rfl rfl (by decide) rfl

/-- Claim C5: the withdrawal signature covers only the channel id, the
participant key and the receiver bytes — not the request's `time`
field — and `withdraw` uses the caller-supplied `req.time` as its
settlement clock, so for any registered channel and correctly signed
(channel, participant, receiver) triple there is a time value (the
registered timeout) making the withdrawal pass the settlement check and
drain the holdings slot, independent of any actual current time. -/
theorem withdraw_time_attack (C : Crypto) (cs : CanisterState)
    (c pk rcv sig : List Nat) (rs : RegisteredState)
    (hch : cs.channels c = some rs)
    (hsig : C.ver pk (withdrawMsg ⟨c, pk, rcv, sig, 0⟩) sig = true) :
    (∀ t1 t2 : Nat,
      withdrawMsg ⟨c, pk, rcv, sig, t1⟩ = withdrawMsg ⟨c, pk, rcv, sig, t2⟩) ∧
    ∃ t : Nat,
      (withdraw C cs ⟨c, pk, rcv, sig, t⟩).1 =
        .ok ((cs.holdings ⟨c, pk⟩).getD 0) ∧
      ((withdraw C cs ⟨c, pk, rcv, sig, t⟩).2).holdings ⟨c, pk⟩ = none := by
  have hsig2 : C.ver pk (withdrawMsg ⟨c, pk, rcv, sig, rs.timeout⟩) sig = true := hsig
  have hst : rs.settled rs.timeout = true := by
    simp [RegisteredState.settled]
  refine ⟨fun t1 t2 => rfl, ⟨rs.timeout, ?_, ?_⟩⟩
  · unfold withdraw
    simp [hsig2, hch, hst]
  · unfold withdraw
    simp [hsig2, hch, hst]

/-- Witness for C5: on the concrete non-settled channel of `disputedCS`
(timeout 100), a request with time field 100 drains the slot of 10. -/
theorem withdraw_time_attack_witness :
    (∀ t1 t2 : Nat,
      withdrawMsg ⟨ch0, [1], [9], [2], t1⟩ = withdrawMsg ⟨ch0, [1], [9], [2], t2⟩) ∧
    ∃ t : Nat,
      (withdraw verTrue disputedCS ⟨ch0, [1], [9], [2], t⟩).1 = .ok 10 ∧
      ((withdraw verTrue disputedCS ⟨ch0, [1], [9], [2], t⟩).2).holdings
        ⟨ch0, [1]⟩ = none :=
  withdraw_time_attack verTrue disputedCS ch0 [1] [9] [2]
    ⟨⟨ch0, 5, [10], false⟩, 100⟩ rfl rfl

/-- Claim C9: a successful withdraw leaves the channel registered and
settled but the slot empty, so an identical second withdraw succeeds
returning 0 rather than an error; and a withdraw whose slot is absent
drains the default amount 0. -/
theorem withdraw_idempotent (C : Crypto) (cs cs2 : CanisterState)
    (req : WithdrawalRequest) (a : Nat)
    (hw : withdraw C cs req = (.ok a, cs2)) :
    (withdraw C cs2 req).1 = .ok 0 ∧
    (cs.holdings ⟨req.channel, req.participant⟩ = none → a = 0) := by
  unfold withdraw at hw
  by_cases hv : C.ver req.participant (withdrawMsg req) req.signature
  case neg => simp [hv] at hw
  rw [if_pos hv] at hw
  cases hch : cs.channels req.channel with
  | none => rw [hch] at hw; simp at hw
  | some st =>
    rw [hch] at hw
    dsimp only at hw
    by_cases hs : st.settled req.time
    case neg => simp [hs] at hw
    rw [if_pos hs] at hw
    rw [Prod.mk.injEq] at hw
    obtain ⟨ha, hcs2⟩ := hw
    constructor
    · unfold withdraw
      rw [if_pos hv]
      have hch2 : cs2.channels req.channel = some st := by
        rw [← hcs2]; exact hch
      rw [hch2]
      dsimp only
      rw [if_pos hs]
      have hempty : cs2.holdings ⟨req.channel, req.participant⟩ = none := by
        rw [← hcs2]; simp
      rw [hempty]
      rfl
    · intro hnone
      have : a = (cs.holdings ⟨req.channel, req.participant⟩).getD 0 := by
        cases ha; rfl
      rw [this, hnone]
      rfl

/-- Witness for C9: after the concrete drain of 10 from `settledCS`, the
identical second withdraw returns 0. -/
theorem withdraw_idempotent_witness :
    (withdraw verTrue
      (withdraw verTrue settledCS ⟨ch0, [1], [9], [2], 3⟩).2
      ⟨ch0, [1], [9], [2], 3⟩).1 = .ok 0 :=
  (withdraw_idempotent verTrue settledCS
    (withdraw verTrue settledCS ⟨ch0, [1], [9], [2], 3⟩).2
    ⟨ch0, [1], [9], [2], 3⟩ 10 rfl).1

/-- Claim C7: a successful receiver verification records the block
height as known, and any call for an already-known block height returns
`DuplicateTransaction` and leaves the receiver — including the unspent
memo map — exactly unchanged, so each height is credited at most once. -/
theorem transaction_notification_idempotent :
    (∀ (query : Nat → Except ICPReceiverError TransactionNotification)
      (r : Receiver) (h a : Nat) (r2 : Receiver),
      Receiver.verify query r h = (.ok a, r2) → r2.known_txs h = true) ∧
    (∀ (query : Nat → Except ICPReceiverError TransactionNotification)
      (r : Receiver) (h : Nat), r.known_txs h = true →
      Receiver.verify query r h = (.error .DuplicateTransaction, r)) := by
  constructor
  · intro query r h a r2 hEq
    unfold Receiver.verify at hEq
    by_cases hk : r.known_txs h
    · simp [hk] at hEq
    · rw [if_neg hk] at hEq
      cases hq : query h with
      | error e => rw [hq] at hEq; simp at hEq
      | ok tx =>
        rw [hq] at hEq
        simp only [hk] at hEq
        by_cases hto : tx.toAcc = r.my_account
        · simp only [hto, ne_eq, not_true_eq_false, if_false, if_neg,
            Bool.false_eq_true, Prod.mk.injEq] at hEq
          rw [← hEq.2]
          simp
        · simp [hto] at hEq
  · intro query r h hk
    unfold Receiver.verify
    rw [if_pos hk]

/-- Witness for C7: the receiver produced by a first successful
verification of height 7 rejects a second call as a duplicate,
unchanged. -/
theorem transaction_notification_idempotent_witness :
    Receiver.verify q8 (Receiver.verify q8 r8ok 7).2 7 =
      (.error .DuplicateTransaction, (Receiver.verify q8 r8ok 7).2) :=
  transaction_notification_idempotent.2 q8 (Receiver.verify q8 r8ok 7).2 7
    (transaction_notification_idempotent.1 q8 r8ok 7 5
      (Receiver.verify q8 r8ok 7).2 rfl)

/-- Claim C8 counterexample: verifying fresh height 7 whose transaction
is addressed to [1] while the receiver's account is [2] returns
`Recipient`, yet the height is now recorded as known and a retry of the
same height returns `DuplicateTransaction` instead of being
re-examined. -/
theorem verify_recipient_marks_known_cex :
    r8.known_txs 7 = false ∧
    (Receiver.verify q8 r8 7).1 = .error .Recipient ∧
    ((Receiver.verify q8 r8 7).2).known_txs 7 = true ∧
    (Receiver.verify q8 ((Receiver.verify q8 r8 7).2) 7).1 =
      .error .DuplicateTransaction := by
  refine ⟨rfl, rfl, rfl, rfl⟩

/-- Claim C8 amended: a verify call on a fresh block height whose
transaction is addressed to another account returns `Recipient` and
leaves the unspent memo map unchanged, but the height is inserted into
the known-block-height set before the recipient check, so a later retry
of the same height returns `DuplicateTransaction`. -/
theorem verify_recipient_marks_known
    (query : Nat → Except ICPReceiverError TransactionNotification)
    (r : Receiver) (h : Nat) (tx : TransactionNotification)
    (hk : r.known_txs h = false) (hq : query h = .ok tx)
    (hto : tx.toAcc ≠ r.my_account) :
    (Receiver.verify query r h).1 = .error .Recipient ∧
    ((Receiver.verify query r h).2).unspent = r.unspent ∧
    ((Receiver.verify query r h).2).known_txs h = true ∧
    (Receiver.verify query ((Receiver.verify query r h).2) h).1 =
      .error .DuplicateTransaction := by
  have hv : Receiver.verify query r h =
      (.error .Recipient,
        { r with known_txs := fun k => if k = h then true else r.known_txs k }) := by
    unfold Receiver.verify
    rw [if_neg (by simp [hk]), hq]
    simp [hk, hto]
  rw [hv]
  refine ⟨rfl, rfl, by simp, ?_⟩
  unfold Receiver.verify
  simp

/-- Witness for C8 amended: the concrete wrong-recipient verification of
height 7. -/
theorem verify_recipient_marks_known_witness :
    (Receiver.verify q8 r8 7).1 = .error .Recipient ∧
    ((Receiver.verify q8 r8 7).2).unspent = r8.unspent ∧
    ((Receiver.verify q8 r8 7).2).known_txs 7 = true ∧
    (Receiver.verify q8 ((Receiver.verify q8 r8 7).2) 7).1 =
      .error .DuplicateTransaction :=
  verify_recipient_marks_known q8 r8 7 ⟨[1], 5, 9⟩ rfl rfl (by decide)

end Perun
